import Mathlib

/-!
Shallow embedding of the Street Solar Charger control core
(`src/Street_Solar.ino`): the charge state machine (`loop`), the
switching scheduler (`pwm_handler`), the trapezoidal integrator and the
perturb-and-observe MPPT decision engine.

Modelling conventions:
* `double` values are modelled as `ℚ` (exact arithmetic);
* `unsigned char` values are naturals reduced mod 256 where overflow can
  occur; `unsigned long` timestamps are naturals reduced mod 2^32;
* `long int` is `ℤ`; the C conversion double → long truncates toward
  zero (`trunc0`); the C cast `(char)` of a double in range is `castUChar`;
* `integral_avg >>= 1` is an arithmetic right shift, i.e. floor division
  by 2 on `ℤ` (`Int.fdiv`);
* each `loop` dispatch consumes an `Inputs` record holding the values the
  sensor reads of that dispatch would return (two battery reads can occur
  in one MPPT dispatch, hence `vbat1`/`vbat2`) and the `micros()` value.
-/

/-- `#define VCHARGE 14.0` -/
def VCHARGE : ℚ := 14

/-- `#define NUM_INT 10` -/
def NUM_INT : ℕ := 10

/-- `#define D_MIN 5` -/
def D_MIN : ℕ := 5

/-- `#define D_MAX 98` -/
def D_MAX : ℕ := 98

/-- Truncation toward zero, the C conversion from `double` to an integer type. -/
def trunc0 (q : ℚ) : ℤ :=
  if 0 ≤ q then ⌊q⌋ else ⌈q⌉

/-- The cast `(char)` applied to a `double`, landing in an `unsigned char`
variable: truncate toward zero, reduce mod 256 (exact for values in [0,128),
which covers every use in the theorems below). -/
def castUChar (q : ℚ) : ℕ :=
  (trunc0 q).toNat % 256

/-- Subtraction of `unsigned long` (32-bit) values `a - b`, both already
reduced mod 2^32. -/
def usub32 (a b : ℕ) : ℕ :=
  (a + 2 ^ 32 - b) % 2 ^ 32

/-- `typedef enum _states {INIT, INTEGRATE, MPPT, DONE} STATES;` -/
inductive STATES where
  | INIT
  | INTEGRATE
  | MPPT
  | DONE
deriving DecidableEq, Repr

/-- The global variables of `Street_Solar.ino`, plus `sw`, the level last
written to the `SW1_PWM` output pin. -/
structure Charger where
  cur_state : STATES
  duty_cycle : ℕ
  v_solar : ℚ
  v_battery : ℚ
  vl_cur : ℚ
  vl_prev : ℚ
  p_cur : ℚ
  p_prev : ℚ
  integral : ℤ
  t_cur : ℕ
  t_prev : ℕ
  num_integrals : ℕ
  integral_avg : ℤ
  pwm_count : ℕ
  new_integral : Bool
  timer_on : Bool
  duty_inc : Bool
  sw : Bool
deriving DecidableEq, Repr

/-- The sensor and clock values one `loop` dispatch would read:
`vbat1` the first `VBAT_MEAS`, `vbat2` the second `VBAT_MEAS` (MPPT reads
the battery again inside the decision step), `vsol` the `VSOL_MEAS`,
`vl` the `VL_MEAS`, `t` the `micros()` value. -/
structure Inputs where
  vbat1 : ℚ
  vbat2 : ℚ
  vsol : ℚ
  vl : ℚ
  t : ℕ
deriving DecidableEq, Repr

/-- `check_battery()`: store the battery reading; if `v_battery >= VCHARGE`,
clear `timer_on` and set the state to `DONE`. -/
def check_battery (s : Charger) (vb : ℚ) : Charger :=
  let s := { s with v_battery := vb }
  if VCHARGE ≤ s.v_battery then { s with timer_on := false, cur_state := .DONE } else s

/-- `check_solar()`: store the solar reading. -/
def check_solar (s : Charger) (vs : ℚ) : Charger :=
  { s with v_solar := vs }

/-- The trapezoid term added to `integral` each INTEGRATE cycle, with the
source's branch on which of the two samples is larger
(`if (vl_cur >= vl_prev) ... else ...`, lines 202–206). -/
def trapTerm (vp vc dt : ℚ) : ℚ :=
  if vp ≤ vc then (vp + (vc - vp) / 2) * dt else (vc + (vp - vc) / 2) * dt

/-- The INIT case of `loop` (lines 154–185): reset counters, flags and
power tracking, read battery and solar, seed `vl_prev`, seed
`duty_cycle = (char)(100 * (v_battery / v_solar))`, seed the timestamps,
move to INTEGRATE and enable the timer. -/
def initStep (s : Charger) (inp : Inputs) : Charger :=
  let s := { s with pwm_count := 0, num_integrals := 0, integral := 0,
                    new_integral := false, integral_avg := 0, duty_inc := true,
                    p_prev := 0, p_cur := 0 }
  let s := check_battery s inp.vbat1
  let s := check_solar s inp.vsol
  let s := { s with vl_prev := inp.vl }
  let s := { s with duty_cycle := castUChar (100 * (s.v_battery / s.v_solar)) }
  let s := { s with t_prev := inp.t % 2 ^ 32, t_cur := inp.t % 2 ^ 32 }
  { s with cur_state := .INTEGRATE, timer_on := true }

/-- The INTEGRATE case of `loop` (lines 192–211): drive the switch ON on the
entry edge, set `new_integral`, sample time and inductor voltage, add the
trapezoid term to `integral` (a `long int`, so the `double` sum is truncated
toward zero), and advance `t_prev`, `vl_prev`. -/
def integrateStep (s : Charger) (inp : Inputs) : Charger :=
  let s := if !s.new_integral then { s with sw := true } else s
  let s := { s with new_integral := true }
  let s := { s with t_cur := inp.t % 2 ^ 32 }
  let s := { s with vl_cur := inp.vl }
  let dt : ℚ := (usub32 s.t_cur s.t_prev : ℕ)
  let s := { s with integral := trunc0 ((s.integral : ℚ) + trapTerm s.vl_prev s.vl_cur dt) }
  { s with t_prev := s.t_cur, vl_prev := s.vl_cur }

/-- `if (++duty_cycle >= D_MAX) duty_cycle = D_MAX;` on an `unsigned char`. -/
def dutyUp (d : ℕ) : ℕ :=
  let d2 := (d + 1) % 256
  if D_MAX ≤ d2 then D_MAX else d2

/-- `if (--duty_cycle <= D_MIN) duty_cycle = D_MIN;` on an `unsigned char`. -/
def dutyDown (d : ℕ) : ℕ :=
  let d2 := (d + 255) % 256
  if d2 ≤ D_MIN then D_MIN else d2

/-- Lines 222–226 of the MPPT case: `if (v_solar*D_MAX/100.0 < v_battery)
{ timer_on = 0; cur_state = DONE; }`. -/
def solarDropCheck (s : Charger) : Charger :=
  if s.v_solar * (D_MAX : ℚ) / 100 < s.v_battery then
    { s with timer_on := false, cur_state := .DONE }
  else s

/-- Lines 228–241 of the MPPT case, the entry-edge block guarded by
`new_integral`: switch OFF, `integral_avg += integral`, `integral_avg >>= 1`
(arithmetic shift, i.e. floor division by 2), `num_integrals++`
(`unsigned char`), clear `new_integral`, reset `integral`. -/
def entryFold (s : Charger) : Charger :=
  if s.new_integral then
    { s with sw := false,
             integral_avg := Int.fdiv (s.integral_avg + s.integral) 2,
             num_integrals := (s.num_integrals + 1) % 256,
             new_integral := false,
             integral := 0 }
  else s

/-- Line 247: `p_cur = v_battery*integral_avg;` (the `long int` average is
converted to `double` for the product). -/
def powerRead (s : Charger) : Charger :=
  { s with p_cur := s.v_battery * (s.integral_avg : ℚ) }

/-- Lines 250–273, the perturb-and-observe branch tree:
`p_cur - p_prev > 0` repeats the direction stored in `duty_inc`,
`p_cur - p_prev < 0` reverses it, equality leaves everything alone;
each arm runs the increment/decrement-with-clamp idiom of the source. -/
def pAndO (s : Charger) : Charger :=
  if s.p_prev < s.p_cur then
    if s.duty_inc then { s with duty_cycle := dutyUp s.duty_cycle, duty_inc := true }
    else { s with duty_cycle := dutyDown s.duty_cycle, duty_inc := false }
  else if s.p_cur < s.p_prev then
    if s.duty_inc then { s with duty_cycle := dutyDown s.duty_cycle, duty_inc := false }
    else { s with duty_cycle := dutyUp s.duty_cycle, duty_inc := true }
  else s

/-- Lines 243–278 of the MPPT case, the block guarded by
`num_integrals == NUM_INT`: re-check the battery (`vb2` is that second
battery reading), compute `p_cur = v_battery*integral_avg`, run the
perturb-and-observe duty-cycle update, then `p_prev = p_cur` and
`num_integrals = 0`. -/
def decisionStep (s : Charger) (vb2 : ℚ) : Charger :=
  if s.num_integrals = NUM_INT then
    let t := pAndO (powerRead (check_battery s vb2))
    { t with p_prev := t.p_cur, num_integrals := 0 }
  else s

/-- The MPPT case of `loop` (lines 217–279): battery and solar checks, the
insufficient-source test, the entry-edge fold of `integral` into
`integral_avg`, and — when `num_integrals` has reached `NUM_INT` — the
perturb-and-observe duty-cycle decision. -/
def mpptStep (s : Charger) (inp : Inputs) : Charger :=
  decisionStep (entryFold (solarDropCheck (check_solar (check_battery s inp.vbat1) inp.vsol))) inp.vbat2

/-- The DONE case of `loop` (lines 284–299): clear the timer, force the
switch OFF, re-check battery and solar, and return to INIT when the battery
is below `VCHARGE` and the source is again sufficient. -/
def doneStep (s : Charger) (inp : Inputs) : Charger :=
  let s := { s with timer_on := false, sw := false }
  let s := check_battery s inp.vbat1
  let s := check_solar s inp.vsol
  if s.v_battery < VCHARGE ∧ s.v_battery ≤ s.v_solar * (D_MAX : ℚ) / 100 then
    { s with cur_state := .INIT }
  else s

/-- One `loop()` dispatch: the state-machine `switch`. -/
def loopStep (s : Charger) (inp : Inputs) : Charger :=
  match s.cur_state with
  | .INIT => initStep s inp
  | .INTEGRATE => integrateStep s inp
  | .MPPT => mpptStep s inp
  | .DONE => doneStep s inp

/-- `pwm_handler()` (lines 310–324): when `timer_on`, increment `pwm_count`
(`unsigned char`); signal INTEGRATE while the count is within the duty
window, MPPT while it is between the duty cycle and 100, and reset the
count to 0 once it reaches 100. -/
def pwm_handler (s : Charger) : Charger :=
  if s.timer_on then
    let c := (s.pwm_count + 1) % 256
    if c ≤ s.duty_cycle then { s with pwm_count := c, cur_state := .INTEGRATE }
    else if s.duty_cycle < c ∧ c < 100 then { s with pwm_count := c, cur_state := .MPPT }
    else if 100 ≤ c then { s with pwm_count := 0 }
    else { s with pwm_count := c }
  else s

/-- The state after `setup()`: C globals are zero-initialised, `setup`
clears the timer, drives the switch LOW and selects INIT. -/
def setupState : Charger :=
  { cur_state := .INIT, duty_cycle := 0, v_solar := 0, v_battery := 0,
    vl_cur := 0, vl_prev := 0, p_cur := 0, p_prev := 0, integral := 0,
    t_cur := 0, t_prev := 0, num_integrals := 0, integral_avg := 0,
    pwm_count := 0, new_integral := false, timer_on := false,
    duty_inc := false, sw := false }

/-- Reachability: states produced from the post-`setup` state by any
interleaving of `loop` dispatches (with arbitrary sensor readings) and
scheduler ticks. -/
inductive Reachable : Charger → Prop where
  | setup : Reachable setupState
  | loop : ∀ {s : Charger}, Reachable s → ∀ inp : Inputs, Reachable (loopStep s inp)
  | tick : ∀ {s : Charger}, Reachable s → Reachable (pwm_handler s)

def runIntegrate (s : Charger) (samples : List Inputs) : Charger :=
  samples.foldl integrateStep s

def timesOk (tp : ℕ) : List Inputs → Bool
  | [] => true
  | i :: rest => decide (tp ≤ i.t) && decide (i.t < 2 ^ 32) && timesOk i.t rest

def trapSum (vp : ℚ) (tp : ℕ) : List Inputs → ℚ
  | [] => 0
  | i :: rest => (vp + i.vl) / 2 * ((i.t : ℚ) - (tp : ℚ)) + trapSum i.vl i.t rest

/-- The `pwm_count` update a scheduler tick performs while `timer_on`,
as a pure function of `duty_cycle` and the old count. -/
def tickCount (d c : ℕ) : ℕ :=
  let c2 := (c + 1) % 256
  if c2 ≤ d then c2
  else if d < c2 ∧ c2 < 100 then c2
  else if 100 ≤ c2 then 0
  else c2

/-- `min (d+1) D_MAX`: the increase direction as the spec words it. -/
def clampInc (d : ℕ) : ℕ := min (d + 1) D_MAX

/-- `max (d-1) D_MIN`: the decrease direction as the spec words it. -/
def clampDec (d : ℕ) : ℕ := max (d - 1) D_MIN

def c7Samples : List Inputs := [⟨0, 0, 0, 2, 10⟩, ⟨0, 0, 0, 4, 20⟩]

def resetTickState : Charger :=
  { setupState with timer_on := true, duty_cycle := 50, pwm_count := 99, cur_state := .DONE }

def c3Sample : Charger :=
  { setupState with timer_on := true, duty_cycle := 50, pwm_count := 10, cur_state := .INTEGRATE }

def c4Seed : Charger := loopStep setupState ⟨13, 0, 10, 0, 0⟩

def c5State : Charger :=
  { setupState with num_integrals := 10, duty_cycle := 50, duty_inc := true,
                    integral_avg := 2, p_prev := 0 }

def c6State : Charger :=
  { setupState with new_integral := true, num_integrals := 3, integral_avg := 5, integral := 2 }

def c9State : Charger :=
  { setupState with new_integral := true, num_integrals := 9, duty_cycle := 50,
                    duty_inc := true, integral_avg := 4, integral := 2, p_prev := 0 }

def c4Bench : Charger :=
  { setupState with timer_on := true, duty_cycle := 50, pwm_count := 10, cur_state := .INTEGRATE }

section FieldLemmas

variable (s : Charger) (vb vs : ℚ)

theorem check_battery_duty : (check_battery s vb).duty_cycle = s.duty_cycle := by
  simp only [check_battery]; split <;> rfl

theorem check_battery_duty_inc : (check_battery s vb).duty_inc = s.duty_inc := by
  simp only [check_battery]; split <;> rfl

theorem check_battery_num : (check_battery s vb).num_integrals = s.num_integrals := by
  simp only [check_battery]; split <;> rfl

theorem check_battery_avg : (check_battery s vb).integral_avg = s.integral_avg := by
  simp only [check_battery]; split <;> rfl

theorem check_battery_integral : (check_battery s vb).integral = s.integral := by
  simp only [check_battery]; split <;> rfl

theorem check_battery_ni : (check_battery s vb).new_integral = s.new_integral := by
  simp only [check_battery]; split <;> rfl

theorem check_battery_sw : (check_battery s vb).sw = s.sw := by
  simp only [check_battery]; split <;> rfl

theorem check_battery_pwm : (check_battery s vb).pwm_count = s.pwm_count := by
  simp only [check_battery]; split <;> rfl

theorem check_battery_pprev : (check_battery s vb).p_prev = s.p_prev := by
  simp only [check_battery]; split <;> rfl

theorem check_battery_vbat : (check_battery s vb).v_battery = vb := by
  simp only [check_battery]; split <;> rfl

theorem check_battery_vsol : (check_battery s vb).v_solar = s.v_solar := by
  simp only [check_battery]; split <;> rfl

theorem check_battery_done (h : s.cur_state = .DONE) :
    (check_battery s vb).cur_state = .DONE := by
  simp only [check_battery]; split <;> simp [h]

theorem check_battery_timer_off (h : s.timer_on = false) :
    (check_battery s vb).timer_on = false := by
  simp only [check_battery]; split <;> simp [h]

theorem check_battery_of_lt (h : vb < VCHARGE) :
    (check_battery s vb).timer_on = s.timer_on ∧ (check_battery s vb).cur_state = s.cur_state := by
  simp only [check_battery]
  rw [if_neg (by exact not_le.mpr h)]
  exact ⟨rfl, rfl⟩

theorem check_solar_fields :
    (check_solar s vs).v_solar = vs ∧ (check_solar s vs).v_battery = s.v_battery ∧
    (check_solar s vs).duty_cycle = s.duty_cycle ∧ (check_solar s vs).timer_on = s.timer_on ∧
    (check_solar s vs).cur_state = s.cur_state ∧ (check_solar s vs).num_integrals = s.num_integrals ∧
    (check_solar s vs).new_integral = s.new_integral ∧ (check_solar s vs).integral = s.integral ∧
    (check_solar s vs).integral_avg = s.integral_avg ∧ (check_solar s vs).sw = s.sw ∧
    (check_solar s vs).p_prev = s.p_prev ∧ (check_solar s vs).duty_inc = s.duty_inc := by
  simp only [check_solar]
  simp

end FieldLemmas

section FieldLemmas2

variable (s : Charger) (vb2 : ℚ)

theorem solarDropCheck_same :
    (solarDropCheck s).duty_cycle = s.duty_cycle ∧
    (solarDropCheck s).num_integrals = s.num_integrals ∧
    (solarDropCheck s).new_integral = s.new_integral ∧
    (solarDropCheck s).integral = s.integral ∧
    (solarDropCheck s).integral_avg = s.integral_avg ∧
    (solarDropCheck s).sw = s.sw ∧
    (solarDropCheck s).p_prev = s.p_prev ∧
    (solarDropCheck s).duty_inc = s.duty_inc ∧
    (solarDropCheck s).v_battery = s.v_battery ∧
    (solarDropCheck s).pwm_count = s.pwm_count := by
  unfold solarDropCheck; split <;> simp

theorem solarDropCheck_trig (h : s.v_solar * (D_MAX : ℚ) / 100 < s.v_battery) :
    (solarDropCheck s).timer_on = false ∧ (solarDropCheck s).cur_state = .DONE := by
  unfold solarDropCheck; rw [if_pos h]; exact ⟨rfl, rfl⟩

theorem entryFold_skip (h : s.new_integral = false) : entryFold s = s := by
  unfold entryFold; rw [h]; rfl

theorem entryFold_fold (h : s.new_integral = true) :
    entryFold s =
      { s with sw := false,
               integral_avg := Int.fdiv (s.integral_avg + s.integral) 2,
               num_integrals := (s.num_integrals + 1) % 256,
               new_integral := false,
               integral := 0 } := by
  unfold entryFold; rw [h]; rfl

theorem entryFold_duty : (entryFold s).duty_cycle = s.duty_cycle := by
  unfold entryFold; split <;> rfl

theorem entryFold_same :
    (entryFold s).duty_cycle = s.duty_cycle ∧
    (entryFold s).timer_on = s.timer_on ∧
    (entryFold s).cur_state = s.cur_state ∧
    (entryFold s).p_prev = s.p_prev ∧
    (entryFold s).duty_inc = s.duty_inc ∧
    (entryFold s).v_battery = s.v_battery ∧
    (entryFold s).v_solar = s.v_solar ∧
    (entryFold s).pwm_count = s.pwm_count := by
  unfold entryFold; split <;> simp

theorem pAndO_same :
    (pAndO s).num_integrals = s.num_integrals ∧
    (pAndO s).integral = s.integral ∧
    (pAndO s).integral_avg = s.integral_avg ∧
    (pAndO s).new_integral = s.new_integral ∧
    (pAndO s).sw = s.sw ∧
    (pAndO s).timer_on = s.timer_on ∧
    (pAndO s).cur_state = s.cur_state ∧
    (pAndO s).p_cur = s.p_cur ∧
    (pAndO s).p_prev = s.p_prev ∧
    (pAndO s).pwm_count = s.pwm_count := by
  unfold pAndO; split_ifs <;> simp

theorem pAndO_duty :
    (pAndO s).duty_cycle =
      (if s.p_prev < s.p_cur then
         (if s.duty_inc = true then dutyUp s.duty_cycle else dutyDown s.duty_cycle)
       else if s.p_cur < s.p_prev then
         (if s.duty_inc = true then dutyDown s.duty_cycle else dutyUp s.duty_cycle)
       else s.duty_cycle) := by
  unfold pAndO; split_ifs <;> simp_all

theorem decisionStep_skip (h : s.num_integrals ≠ NUM_INT) : decisionStep s vb2 = s := by
  unfold decisionStep; rw [if_neg h]

end FieldLemmas2

theorem decisionStep_trig (s : Charger) (vb2 : ℚ) (h : s.num_integrals = NUM_INT) :
    (decisionStep s vb2).p_cur = vb2 * (s.integral_avg : ℚ) ∧
    (decisionStep s vb2).p_prev = vb2 * (s.integral_avg : ℚ) ∧
    (decisionStep s vb2).num_integrals = 0 ∧
    (decisionStep s vb2).integral = s.integral ∧
    (decisionStep s vb2).integral_avg = s.integral_avg ∧
    (decisionStep s vb2).new_integral = s.new_integral ∧
    (decisionStep s vb2).sw = s.sw ∧
    (decisionStep s vb2).duty_cycle =
      (if s.p_prev < vb2 * (s.integral_avg : ℚ) then
         (if s.duty_inc = true then dutyUp s.duty_cycle else dutyDown s.duty_cycle)
       else if vb2 * (s.integral_avg : ℚ) < s.p_prev then
         (if s.duty_inc = true then dutyDown s.duty_cycle else dutyUp s.duty_cycle)
       else s.duty_cycle) := by
  unfold decisionStep
  rw [if_pos h]
  simp only []
  refine ⟨?_, ?_, ?_, ?_, ?_, ?_, ?_, ?_⟩ <;>
    simp [pAndO_same, pAndO_duty, powerRead, check_battery_vbat, check_battery_avg,
          check_battery_pprev, check_battery_duty, check_battery_duty_inc,
          check_battery_integral, check_battery_ni, check_battery_sw]

theorem decisionStep_done (s : Charger) (vb2 : ℚ) (h : s.cur_state = .DONE) :
    (decisionStep s vb2).cur_state = .DONE := by
  unfold decisionStep
  split
  · simp [pAndO_same, powerRead, check_battery_done _ _ h]
  · exact h

theorem decisionStep_timer_off (s : Charger) (vb2 : ℚ) (h : s.timer_on = false) :
    (decisionStep s vb2).timer_on = false := by
  unfold decisionStep
  split
  · simp [pAndO_same, powerRead, check_battery_timer_off _ _ h]
  · exact h

theorem trapTerm_avg (vp vc dt : ℚ) : trapTerm vp vc dt = (vp + vc) / 2 * dt := by
  unfold trapTerm; split_ifs <;> ring

theorem trunc0_err (q : ℚ) : |((trunc0 q : ℤ) : ℚ) - q| < 1 := by
  unfold trunc0
  split_ifs with h
  · have h1 := Int.floor_le q
    have h2 := Int.sub_one_lt_floor q
    rw [abs_lt]
    constructor <;> linarith
  · have h1 := Int.le_ceil q
    have h2 := Int.ceil_lt_add_one q
    rw [abs_lt]
    constructor <;> linarith

theorem usub32_eq (a b : ℕ) (h1 : b ≤ a) (h2 : a < 2 ^ 32) : usub32 a b = a - b := by
  unfold usub32; omega

theorem integrateStep_fields (s : Charger) (i : Inputs) :
    (integrateStep s i).integral =
      trunc0 ((s.integral : ℚ) + trapTerm s.vl_prev i.vl ((usub32 (i.t % 2 ^ 32) s.t_prev : ℕ) : ℚ)) ∧
    (integrateStep s i).t_prev = i.t % 2 ^ 32 ∧
    (integrateStep s i).vl_prev = i.vl ∧
    (integrateStep s i).new_integral = true := by
  unfold integrateStep
  split <;> simp

theorem runIntegrate_close (l : List Inputs) : ∀ s : Charger,
    s.t_prev < 2 ^ 32 → timesOk s.t_prev l = true →
    |((runIntegrate s l).integral : ℚ) - ((s.integral : ℚ) + trapSum s.vl_prev s.t_prev l)| ≤
      l.length := by
  induction l with
  | nil => intro s _ _; simp [runIntegrate, trapSum]
  | cons i rest ih =>
    intro s ht hok
    simp only [timesOk, Bool.and_eq_true, decide_eq_true_eq] at hok
    obtain ⟨⟨hle, hlt⟩, hok⟩ := hok
    obtain ⟨hint, htp, hvl, _⟩ := integrateStep_fields s i
    have hmod : i.t % 2 ^ 32 = i.t := Nat.mod_eq_of_lt hlt
    have hrun : runIntegrate s (i :: rest) = runIntegrate (integrateStep s i) rest := rfl
    have hdt : ((usub32 (i.t % 2 ^ 32) s.t_prev : ℕ) : ℚ) = (i.t : ℚ) - (s.t_prev : ℚ) := by
      rw [hmod, usub32_eq i.t s.t_prev hle hlt]
      push_cast [Nat.cast_sub hle]
      ring
    have hterm : trapTerm s.vl_prev i.vl ((usub32 (i.t % 2 ^ 32) s.t_prev : ℕ) : ℚ) =
        (s.vl_prev + i.vl) / 2 * ((i.t : ℚ) - (s.t_prev : ℚ)) := by
      rw [trapTerm_avg, hdt]
    have hih := ih (integrateStep s i) (by rw [htp, hmod]; exact hlt) (by rw [htp, hmod]; exact hok)
    rw [htp, hmod, hvl, hint] at hih
    have herr := trunc0_err ((s.integral : ℚ) +
      trapTerm s.vl_prev i.vl ((usub32 (i.t % 2 ^ 32) s.t_prev : ℕ) : ℚ))
    rw [hrun]
    set A : ℚ := ((runIntegrate (integrateStep s i) rest).integral : ℚ)
    set B : ℚ := ((trunc0 ((s.integral : ℚ) + trapTerm s.vl_prev i.vl
      ((usub32 (i.t % 2 ^ 32) s.t_prev : ℕ) : ℚ)) : ℤ) : ℚ)
    set C : ℚ := (s.integral : ℚ)
    set T : ℚ := trapSum i.vl i.t rest
    set td : ℚ := trapTerm s.vl_prev i.vl ((usub32 (i.t % 2 ^ 32) s.t_prev : ℕ) : ℚ)
    have hts : trapSum s.vl_prev s.t_prev (i :: rest) = td + T := by
      simp only [trapSum]
      rw [hterm]
    rw [hts]
    have key : |A - (C + (td + T))| ≤ |A - (B + T)| + |B - (C + td)| := by
      have habs : A - (C + (td + T)) = (A - (B + T)) + (B - (C + td)) := by ring
      rw [habs]
      exact abs_add _ _
    have hlen : ((i :: rest).length : ℚ) = (rest.length : ℚ) + 1 := by
      push_cast [List.length_cons]
      ring
    rw [hlen]
    linarith

theorem pwm_handler_count (s : Charger) (h : s.timer_on = true) :
    (pwm_handler s).pwm_count = tickCount s.duty_cycle s.pwm_count := by
  simp only [pwm_handler, tickCount, h]
  split_ifs <;> rfl

theorem pwm_handler_same (s : Charger) :
    (pwm_handler s).timer_on = s.timer_on ∧ (pwm_handler s).duty_cycle = s.duty_cycle := by
  simp only [pwm_handler]
  split_ifs <;> simp

theorem pwm_handler_iterate_count (s : Charger) (h : s.timer_on = true) (n : ℕ) :
    (pwm_handler^[n] s).pwm_count = (tickCount s.duty_cycle)^[n] s.pwm_count ∧
    (pwm_handler^[n] s).timer_on = true ∧
    (pwm_handler^[n] s).duty_cycle = s.duty_cycle := by
  induction n with
  | zero => exact ⟨rfl, h, rfl⟩
  | succ n ih =>
    obtain ⟨h1, h2, h3⟩ := ih
    rw [Function.iterate_succ_apply', Function.iterate_succ_apply']
    obtain ⟨ht, hd⟩ := pwm_handler_same (pwm_handler^[n] s)
    refine ⟨?_, by rw [ht]; exact h2, by rw [hd]; exact h3⟩
    rw [pwm_handler_count _ h2, h1, h3]

theorem Reachable.iterate_tick {s : Charger} (h : Reachable s) (n : ℕ) :
    Reachable (pwm_handler^[n] s) := by
  induction n with
  | zero => exact h
  | succ n ih =>
    rw [Function.iterate_succ_apply']
    exact ih.tick

theorem dutyUp_eq_clampInc (d : ℕ) (h1 : D_MIN ≤ d) (h2 : d ≤ D_MAX) :
    dutyUp d = clampInc d := by
  simp only [dutyUp, clampInc]
  unfold D_MIN D_MAX at *
  have hm : (d + 1) % 256 = d + 1 := Nat.mod_eq_of_lt (by omega)
  rw [hm, Nat.min_def]
  split_ifs <;> omega

theorem dutyDown_eq_clampDec (d : ℕ) (h1 : D_MIN ≤ d) (h2 : d ≤ D_MAX) :
    dutyDown d = clampDec d := by
  simp only [dutyDown, clampDec]
  unfold D_MIN D_MAX at *
  have hm : (d + 255) % 256 = d - 1 := by omega
  rw [hm, Nat.max_def]

theorem clampInc_bounds (d : ℕ) (h1 : D_MIN ≤ d) (h2 : d ≤ D_MAX) :
    D_MIN ≤ clampInc d ∧ clampInc d ≤ D_MAX := by
  unfold clampInc
  unfold D_MIN D_MAX at *
  rw [Nat.min_def]
  split_ifs <;> omega

theorem clampDec_bounds (d : ℕ) (h1 : D_MIN ≤ d) (h2 : d ≤ D_MAX) :
    D_MIN ≤ clampDec d ∧ clampDec d ≤ D_MAX := by
  unfold clampDec
  unfold D_MIN D_MAX at *
  rw [Nat.max_def]
  split_ifs <;> omega

/-- C10: the two branches of the integration update (lines 202–206) are
extensionally equal: both branch expressions equal the plain average
`(vl_prev + vl_cur)/2`, so `trapTerm` — and with it the guarded
`integral +=` update — is equivalent to the unconditional
`integral += ((vl_prev + vl_cur)/2) * (t_cur - t_prev)`. -/
theorem C10_branches_equal_plain_average (vp vc dt : ℚ) :
    vp + (vc - vp) / 2 = (vp + vc) / 2 ∧
    vc + (vp - vc) / 2 = (vp + vc) / 2 ∧
    trapTerm vp vc dt = (vp + vc) / 2 * dt := by
  refine ⟨by ring, by ring, ?_⟩
  unfold trapTerm
  split_ifs <;> ring

/-- C7: feeding any monotone sequence of timestamped inductor-voltage
samples through consecutive INTEGRATE cycles, the accumulated `integral`
equals the analytic trapezoidal sum to within the accumulated quantization
tolerance (strictly less than one unit per sample, hence at most the number
of samples), and each step advances `t_prev` and `vl_prev` to the current
sample. -/
theorem C7_trapezoidal_integration (s : Charger) (l : List Inputs) (i : Inputs)
    (ht : s.t_prev < 2 ^ 32) (hok : timesOk s.t_prev l = true) :
    |((runIntegrate s l).integral : ℚ) - ((s.integral : ℚ) + trapSum s.vl_prev s.t_prev l)| ≤
      l.length ∧
    (integrateStep s i).t_prev = i.t % 2 ^ 32 ∧
    (integrateStep s i).vl_prev = i.vl :=
  ⟨runIntegrate_close l s ht hok, (integrateStep_fields s i).2.1, (integrateStep_fields s i).2.2.1⟩

/-- Witness for C7 at a concrete two-sample run. -/
theorem C7_trapezoidal_integration_witness :
    (setupState.t_prev < 2 ^ 32 ∧ timesOk setupState.t_prev c7Samples = true) ∧
    (|((runIntegrate setupState c7Samples).integral : ℚ) -
        ((setupState.integral : ℚ) + trapSum setupState.vl_prev setupState.t_prev c7Samples)| ≤
        c7Samples.length ∧
     (integrateStep setupState ⟨0, 0, 0, 2, 10⟩).t_prev = (10 : ℕ) % 2 ^ 32 ∧
     (integrateStep setupState ⟨0, 0, 0, 2, 10⟩).vl_prev = 2) :=
  ⟨⟨by decide, by decide⟩,
   C7_trapezoidal_integration setupState c7Samples ⟨0, 0, 0, 2, 10⟩ (by decide) (by decide)⟩

/-- C2 fails on the code: for `v_battery = 12.0`, `v_solar = 18.0` the INIT
case computes `(char)(100*12/18) = 66`, not `round(100*12/18) = 67` — the
C cast truncates instead of rounding. -/
theorem C2_counterexample :
    (initStep setupState ⟨12, 0, 18, 0, 0⟩).duty_cycle = 66 ∧ (66 : ℕ) ≠ 67 := by
  constructor
  · simp [initStep, check_battery, check_solar, setupState, castUChar, trunc0, VCHARGE]
    norm_num
    rfl
  · decide

/-- C2 (amended): in the INIT state with `v_solar ≠ 0`, the initial duty
cycle is `trunc(100 * v_battery / v_solar)` (a truncating cast, not a
rounding); in particular for `v_battery = 12.0`, `v_solar = 18.0` the INIT
state sets `duty_cycle = 66`. -/
theorem C2_init_duty_trunc (s : Charger) (inp : Inputs) (hs : inp.vsol ≠ 0) :
    (initStep s inp).duty_cycle = (trunc0 (100 * (inp.vbat1 / inp.vsol))).toNat % 256 ∧
    (initStep setupState ⟨12, 0, 18, 0, 0⟩).duty_cycle = 66 := by
  constructor
  · simp only [initStep, check_solar, check_battery, castUChar]
    split <;> rfl
  · simp [initStep, check_battery, check_solar, setupState, castUChar, trunc0, VCHARGE]
    norm_num
    rfl

/-- Witness for C2 (amended) at `v_battery = 12`, `v_solar = 18`. -/
theorem C2_init_duty_trunc_witness :
    ((18 : ℚ) ≠ 0) ∧
    ((initStep setupState ⟨12, 0, 18, 0, 0⟩).duty_cycle =
        (trunc0 (100 * ((12 : ℚ) / 18))).toNat % 256 ∧
     (initStep setupState ⟨12, 0, 18, 0, 0⟩).duty_cycle = 66) :=
  ⟨by norm_num, C2_init_duty_trunc setupState ⟨12, 0, 18, 0, 0⟩ (by norm_num)⟩

/-- C1 fails on the code: the INIT seeding does not clamp. From the
post-`setup` state, one INIT dispatch reading `v_battery = 12`,
`v_solar = 12` reaches a state whose `duty_cycle` is `(char)(100*12/12)
= 100 > D_MAX`. -/
theorem C1_counterexample :
    Reachable (loopStep setupState ⟨12, 0, 12, 0, 0⟩) ∧
    (loopStep setupState ⟨12, 0, 12, 0, 0⟩).duty_cycle = 100 ∧
    ¬ (loopStep setupState ⟨12, 0, 12, 0, 0⟩).duty_cycle ≤ D_MAX := by
  have hd : (loopStep setupState ⟨12, 0, 12, 0, 0⟩).duty_cycle = 100 := by
    show (initStep setupState ⟨12, 0, 12, 0, 0⟩).duty_cycle = 100
    simp [initStep, check_battery, check_solar, setupState, castUChar, trunc0, VCHARGE]
    norm_num
    rfl
  exact ⟨Reachable.loop Reachable.setup _, hd, by rw [hd]; unfold D_MAX; omega⟩

theorem mpptStep_duty_cases (s : Charger) (inp : Inputs) :
    (mpptStep s inp).duty_cycle = s.duty_cycle ∨
    (mpptStep s inp).duty_cycle = dutyUp s.duty_cycle ∨
    (mpptStep s inp).duty_cycle = dutyDown s.duty_cycle := by
  unfold mpptStep
  set u := entryFold (solarDropCheck (check_solar (check_battery s inp.vbat1) inp.vsol)) with hu
  have hud : u.duty_cycle = s.duty_cycle := by
    rw [hu, entryFold_duty, (solarDropCheck_same _).1, (check_solar_fields _ _).2.2.1,
        check_battery_duty]
  by_cases hn : u.num_integrals = NUM_INT
  · obtain ⟨_, _, _, _, _, _, _, hdt⟩ := decisionStep_trig u inp.vbat2 hn
    rw [hdt, hud]
    split_ifs <;> simp
  · rw [decisionStep_skip _ _ hn, hud]
    left
    rfl

/-- C1 (amended): the MPPT perturb-and-observe step preserves
`D_MIN ≤ duty_cycle ≤ D_MAX`, but the INIT seeding writes the unclamped
value `trunc(100 * v_battery / v_solar)` (mod 256), which can leave the
bounds. -/
theorem C1_mppt_duty_bounds (s : Charger) (inp : Inputs)
    (h1 : D_MIN ≤ s.duty_cycle) (h2 : s.duty_cycle ≤ D_MAX) :
    D_MIN ≤ (mpptStep s inp).duty_cycle ∧ (mpptStep s inp).duty_cycle ≤ D_MAX := by
  rcases mpptStep_duty_cases s inp with h | h | h
  · rw [h]; exact ⟨h1, h2⟩
  · rw [h, dutyUp_eq_clampInc _ h1 h2]; exact clampInc_bounds _ h1 h2
  · rw [h, dutyDown_eq_clampDec _ h1 h2]; exact clampDec_bounds _ h1 h2

/-- Witness for C1 (amended) at a concrete in-bounds state. -/
theorem C1_mppt_duty_bounds_witness :
    (D_MIN ≤ ({ setupState with duty_cycle := 50 } : Charger).duty_cycle ∧
     ({ setupState with duty_cycle := 50 } : Charger).duty_cycle ≤ D_MAX) ∧
    (D_MIN ≤ (mpptStep { setupState with duty_cycle := 50 } ⟨0, 0, 0, 0, 0⟩).duty_cycle ∧
     (mpptStep { setupState with duty_cycle := 50 } ⟨0, 0, 0, 0, 0⟩).duty_cycle ≤ D_MAX) :=
  ⟨⟨by decide, by decide⟩,
   C1_mppt_duty_bounds { setupState with duty_cycle := 50 } ⟨0, 0, 0, 0, 0⟩
     (by decide) (by decide)⟩

/-- C3 fails on the code: the scheduler invocation on which `pwm_count`
reaches 100 signals neither phase — with `timer_on` true, `duty_cycle = 50`
and `pwm_count = 99`, the handler only resets the count and leaves
`cur_state` untouched (here the marker value `DONE`). -/
theorem C3_counterexample :
    resetTickState.timer_on = true ∧
    (pwm_handler resetTickState).cur_state = STATES.DONE ∧
    (pwm_handler resetTickState).cur_state ≠ STATES.INTEGRATE ∧
    (pwm_handler resetTickState).cur_state ≠ STATES.MPPT ∧
    (pwm_handler resetTickState).pwm_count = 0 := by
  refine ⟨rfl, ?_, ?_, ?_, ?_⟩ <;> decide

/-- C3 (amended): while `timer_on` is true each scheduler invocation signals
at most one phase, determined by comparing the incremented `pwm_count`
against `duty_cycle`: INTEGRATE when the count is `≤ duty_cycle`, MPPT when
it lies strictly between `duty_cycle` and 100; on the invocation where the
count reaches 100 or more no phase is signalled and `pwm_count` resets
to 0. -/
theorem C3_phase_determination (s : Charger) (h : s.timer_on = true) :
    ((s.pwm_count + 1) % 256 ≤ s.duty_cycle →
       (pwm_handler s).cur_state = STATES.INTEGRATE) ∧
    (s.duty_cycle < (s.pwm_count + 1) % 256 ∧ (s.pwm_count + 1) % 256 < 100 →
       (pwm_handler s).cur_state = STATES.MPPT) ∧
    (s.duty_cycle < (s.pwm_count + 1) % 256 ∧ 100 ≤ (s.pwm_count + 1) % 256 →
       (pwm_handler s).cur_state = s.cur_state ∧ (pwm_handler s).pwm_count = 0) := by
  simp only [pwm_handler, h, if_true]
  refine ⟨?_, ?_, ?_⟩
  · intro hc
    rw [if_pos hc]
  · intro ⟨hc1, hc2⟩
    rw [if_neg (by omega), if_pos ⟨hc1, hc2⟩]
  · intro ⟨hc1, hc2⟩
    rw [if_neg (by omega), if_neg (by omega), if_pos hc2]
    exact ⟨rfl, rfl⟩

/-- Witness for C3 (amended) at a concrete mid-window state. -/
theorem C3_phase_determination_witness :
    (c3Sample.timer_on = true) ∧
    (((c3Sample.pwm_count + 1) % 256 ≤ c3Sample.duty_cycle →
       (pwm_handler c3Sample).cur_state = STATES.INTEGRATE) ∧
     (c3Sample.duty_cycle < (c3Sample.pwm_count + 1) % 256 ∧
        (c3Sample.pwm_count + 1) % 256 < 100 →
       (pwm_handler c3Sample).cur_state = STATES.MPPT) ∧
     (c3Sample.duty_cycle < (c3Sample.pwm_count + 1) % 256 ∧
        100 ≤ (c3Sample.pwm_count + 1) % 256 →
       (pwm_handler c3Sample).cur_state = c3Sample.cur_state ∧
       (pwm_handler c3Sample).pwm_count = 0)) :=
  ⟨rfl, C3_phase_determination c3Sample rfl⟩

theorem check_solar_pwm (s : Charger) (vs : ℚ) : (check_solar s vs).pwm_count = s.pwm_count :=
  rfl

theorem entryFold_pwm (s : Charger) : (entryFold s).pwm_count = s.pwm_count := by
  unfold entryFold; split <;> rfl

theorem decisionStep_pwm (s : Charger) (vb2 : ℚ) :
    (decisionStep s vb2).pwm_count = s.pwm_count := by
  unfold decisionStep
  split
  · simp [pAndO_same, powerRead, check_battery_pwm]
  · rfl

theorem mpptStep_pwm (s : Charger) (inp : Inputs) :
    (mpptStep s inp).pwm_count = s.pwm_count := by
  unfold mpptStep
  rw [decisionStep_pwm, entryFold_pwm, (solarDropCheck_same _).2.2.2.2.2.2.2.2.2,
      check_solar_pwm, check_battery_pwm]

theorem c4Seed_fields :
    c4Seed.duty_cycle = 130 ∧ c4Seed.timer_on = true ∧ c4Seed.pwm_count = 0 := by
  refine ⟨?_, ?_, ?_⟩
  · show (initStep setupState ⟨13, 0, 10, 0, 0⟩).duty_cycle = 130
    simp [initStep, check_battery, check_solar, setupState, castUChar, trunc0, VCHARGE]
    norm_num
    rfl
  · show (initStep setupState ⟨13, 0, 10, 0, 0⟩).timer_on = true
    simp [initStep, check_battery, check_solar, setupState, VCHARGE]
  · show (initStep setupState ⟨13, 0, 10, 0, 0⟩).pwm_count = 0
    simp only [initStep, check_battery, check_solar]
    split <;> rfl

set_option maxRecDepth 4000 in
/-- C4 fails on the code: the unclamped INIT seeding can set
`duty_cycle ≥ 100` (here 130, from `v_battery = 13`, `v_solar = 10`), after
which 100 scheduler ticks drive `pwm_count` to 100 — a reachable state
observed at an invocation boundary with `pwm_count` outside [0, 100). -/
theorem C4_counterexample :
    Reachable (pwm_handler^[100] c4Seed) ∧
    (pwm_handler^[100] c4Seed).pwm_count = 100 ∧
    ¬ (pwm_handler^[100] c4Seed).pwm_count < 100 := by
  obtain ⟨hd, ht, hc⟩ := c4Seed_fields
  have hit := (pwm_handler_iterate_count c4Seed ht 100).1
  rw [hd, hc] at hit
  have htick : (tickCount 130)^[100] 0 = 100 := by decide
  rw [htick] at hit
  exact ⟨(Reachable.loop Reachable.setup _).iterate_tick 100, hit, by omega⟩

/-- C4 (amended): provided `duty_cycle < 100` (in particular whenever it lies
in [D_MIN, D_MAX]), `pwm_count` stays in [0, 100) across scheduler
invocations — it is reset to 0 on the invocation where it reaches 100 —
and no `loop` dispatch raises it: a dispatch either leaves `pwm_count`
unchanged or (INIT) resets it to 0. With `duty_cycle ≥ 100`, reachable from
the unclamped INIT seeding, the bound fails. -/
theorem C4_pwm_count_bound (s : Charger) (inp : Inputs)
    (hc : s.pwm_count < 100) (hd : s.duty_cycle < 100) :
    (pwm_handler s).pwm_count < 100 ∧
    (s.timer_on = true → s.pwm_count = 99 → (pwm_handler s).pwm_count = 0) ∧
    ((loopStep s inp).pwm_count = s.pwm_count ∨ (loopStep s inp).pwm_count = 0) := by
  refine ⟨?_, ?_, ?_⟩
  · simp only [pwm_handler]
    split_ifs <;> (try simp) <;> omega
  · intro ht h99
    rw [pwm_handler_count s ht, h99]
    simp [tickCount, Nat.not_le.mpr hd]
  · unfold loopStep
    cases hcs : s.cur_state
    · right
      show (initStep s inp).pwm_count = 0
      simp only [initStep, check_battery, check_solar]
      split <;> rfl
    · left
      show (integrateStep s inp).pwm_count = s.pwm_count
      simp only [integrateStep]
      split <;> rfl
    · left
      exact mpptStep_pwm s inp
    · left
      show (doneStep s inp).pwm_count = s.pwm_count
      unfold doneStep
      simp only [check_battery, check_solar]
      split <;> split <;> rfl

theorem check_solar_ni (s : Charger) (vs : ℚ) : (check_solar s vs).new_integral = s.new_integral :=
  rfl

theorem check_solar_num (s : Charger) (vs : ℚ) :
    (check_solar s vs).num_integrals = s.num_integrals :=
  rfl

theorem check_solar_avg (s : Charger) (vs : ℚ) :
    (check_solar s vs).integral_avg = s.integral_avg :=
  rfl

theorem check_solar_integral (s : Charger) (vs : ℚ) : (check_solar s vs).integral = s.integral :=
  rfl

theorem check_solar_pprev (s : Charger) (vs : ℚ) : (check_solar s vs).p_prev = s.p_prev :=
  rfl

theorem check_solar_dinc (s : Charger) (vs : ℚ) : (check_solar s vs).duty_inc = s.duty_inc :=
  rfl

theorem check_solar_duty (s : Charger) (vs : ℚ) : (check_solar s vs).duty_cycle = s.duty_cycle :=
  rfl

theorem check_solar_vbat (s : Charger) (vs : ℚ) : (check_solar s vs).v_battery = s.v_battery :=
  rfl

theorem check_solar_vsol (s : Charger) (vs : ℚ) : (check_solar s vs).v_solar = vs :=
  rfl

theorem check_solar_sw (s : Charger) (vs : ℚ) : (check_solar s vs).sw = s.sw :=
  rfl

theorem solarDropCheck_num (s : Charger) : (solarDropCheck s).num_integrals = s.num_integrals := by
  unfold solarDropCheck; split <;> rfl

theorem solarDropCheck_ni (s : Charger) : (solarDropCheck s).new_integral = s.new_integral := by
  unfold solarDropCheck; split <;> rfl

theorem solarDropCheck_avg (s : Charger) : (solarDropCheck s).integral_avg = s.integral_avg := by
  unfold solarDropCheck; split <;> rfl

theorem solarDropCheck_integral (s : Charger) : (solarDropCheck s).integral = s.integral := by
  unfold solarDropCheck; split <;> rfl

theorem solarDropCheck_pprev (s : Charger) : (solarDropCheck s).p_prev = s.p_prev := by
  unfold solarDropCheck; split <;> rfl

theorem solarDropCheck_dinc (s : Charger) : (solarDropCheck s).duty_inc = s.duty_inc := by
  unfold solarDropCheck; split <;> rfl

theorem solarDropCheck_duty2 (s : Charger) : (solarDropCheck s).duty_cycle = s.duty_cycle := by
  unfold solarDropCheck; split <;> rfl

theorem solarDropCheck_sw (s : Charger) : (solarDropCheck s).sw = s.sw := by
  unfold solarDropCheck; split <;> rfl

theorem entryFold_timer (s : Charger) : (entryFold s).timer_on = s.timer_on := by
  unfold entryFold; split <;> rfl

theorem entryFold_state (s : Charger) : (entryFold s).cur_state = s.cur_state := by
  unfold entryFold; split <;> rfl

theorem mpptPre_no_fold (s : Charger) (vb1 vs : ℚ) (hni : s.new_integral = false) :
    entryFold (solarDropCheck (check_solar (check_battery s vb1) vs)) =
      solarDropCheck (check_solar (check_battery s vb1) vs) := by
  apply entryFold_skip
  rw [solarDropCheck_ni, check_solar_ni, check_battery_ni]
  exact hni

theorem mpptStep_decision (s : Charger) (inp : Inputs)
    (hni : s.new_integral = false) (hn : s.num_integrals = NUM_INT) :
    (mpptStep s inp).p_cur = inp.vbat2 * (s.integral_avg : ℚ) ∧
    (mpptStep s inp).p_prev = inp.vbat2 * (s.integral_avg : ℚ) ∧
    (mpptStep s inp).num_integrals = 0 ∧
    (mpptStep s inp).duty_cycle =
      (if s.p_prev < inp.vbat2 * (s.integral_avg : ℚ) then
         (if s.duty_inc = true then dutyUp s.duty_cycle else dutyDown s.duty_cycle)
       else if inp.vbat2 * (s.integral_avg : ℚ) < s.p_prev then
         (if s.duty_inc = true then dutyDown s.duty_cycle else dutyUp s.duty_cycle)
       else s.duty_cycle) := by
  unfold mpptStep
  rw [mpptPre_no_fold s inp.vbat1 inp.vsol hni]
  have havg : (solarDropCheck (check_solar (check_battery s inp.vbat1) inp.vsol)).integral_avg =
      s.integral_avg := by
    rw [solarDropCheck_avg, check_solar_avg, check_battery_avg]
  have hpp : (solarDropCheck (check_solar (check_battery s inp.vbat1) inp.vsol)).p_prev =
      s.p_prev := by
    rw [solarDropCheck_pprev, check_solar_pprev, check_battery_pprev]
  have hdi : (solarDropCheck (check_solar (check_battery s inp.vbat1) inp.vsol)).duty_inc =
      s.duty_inc := by
    rw [solarDropCheck_dinc, check_solar_dinc, check_battery_duty_inc]
  have hdc : (solarDropCheck (check_solar (check_battery s inp.vbat1) inp.vsol)).duty_cycle =
      s.duty_cycle := by
    rw [solarDropCheck_duty2, check_solar_duty, check_battery_duty]
  have hnum : (solarDropCheck (check_solar (check_battery s inp.vbat1) inp.vsol)).num_integrals =
      NUM_INT := by
    rw [solarDropCheck_num, check_solar_num, check_battery_num]
    exact hn
  obtain ⟨h1, h2, h3, _, _, _, _, h8⟩ :=
    decisionStep_trig (solarDropCheck (check_solar (check_battery s inp.vbat1) inp.vsol))
      inp.vbat2 hnum
  rw [havg] at h1 h2 h8
  rw [hpp, hdi, hdc] at h8
  exact ⟨h1, h2, h3, h8⟩

/-- C5: in the MPPT state, whenever `num_integrals` has reached `NUM_INT`,
the decision engine computes `p_cur = v_battery * integral_avg` (using the
fresh battery reading of that dispatch), updates `duty_cycle` by
perturb-and-observe — `p_cur > p_prev` repeats the direction recorded in
`duty_inc`, `p_cur < p_prev` reverses it, equality leaves `duty_cycle`
unchanged, every change clamped to [D_MIN, D_MAX] — then sets
`p_prev = p_cur` and resets `num_integrals` to 0. -/
theorem C5_perturb_and_observe (s : Charger) (inp : Inputs)
    (hni : s.new_integral = false) (hn : s.num_integrals = NUM_INT)
    (hd1 : D_MIN ≤ s.duty_cycle) (hd2 : s.duty_cycle ≤ D_MAX) :
    (mpptStep s inp).p_cur = inp.vbat2 * (s.integral_avg : ℚ) ∧
    (mpptStep s inp).p_prev = inp.vbat2 * (s.integral_avg : ℚ) ∧
    (mpptStep s inp).num_integrals = 0 ∧
    (mpptStep s inp).duty_cycle =
      (if s.p_prev < inp.vbat2 * (s.integral_avg : ℚ) then
         (if s.duty_inc = true then clampInc s.duty_cycle else clampDec s.duty_cycle)
       else if inp.vbat2 * (s.integral_avg : ℚ) < s.p_prev then
         (if s.duty_inc = true then clampDec s.duty_cycle else clampInc s.duty_cycle)
       else s.duty_cycle) ∧
    D_MIN ≤ (mpptStep s inp).duty_cycle ∧ (mpptStep s inp).duty_cycle ≤ D_MAX := by
  obtain ⟨h1, h2, h3, h4⟩ := mpptStep_decision s inp hni hn
  rw [dutyUp_eq_clampInc _ hd1 hd2, dutyDown_eq_clampDec _ hd1 hd2] at h4
  refine ⟨h1, h2, h3, h4, ?_⟩
  rw [h4]
  split_ifs
  · exact clampInc_bounds _ hd1 hd2
  · exact clampDec_bounds _ hd1 hd2
  · exact clampDec_bounds _ hd1 hd2
  · exact clampInc_bounds _ hd1 hd2
  · exact ⟨hd1, hd2⟩

/-- Witness for C5 at a concrete state with a positive power delta. -/
theorem C5_perturb_and_observe_witness :
    (c5State.new_integral = false ∧ c5State.num_integrals = NUM_INT ∧
     D_MIN ≤ c5State.duty_cycle ∧ c5State.duty_cycle ≤ D_MAX) ∧
    ((mpptStep c5State ⟨0, 3, 0, 0, 0⟩).p_cur = (3 : ℚ) * ((2 : ℤ) : ℚ) ∧
     (mpptStep c5State ⟨0, 3, 0, 0, 0⟩).p_prev = (3 : ℚ) * ((2 : ℤ) : ℚ) ∧
     (mpptStep c5State ⟨0, 3, 0, 0, 0⟩).num_integrals = 0 ∧
     (mpptStep c5State ⟨0, 3, 0, 0, 0⟩).duty_cycle =
       (if c5State.p_prev < (3 : ℚ) * ((2 : ℤ) : ℚ) then
          (if c5State.duty_inc = true then clampInc c5State.duty_cycle
           else clampDec c5State.duty_cycle)
        else if (3 : ℚ) * ((2 : ℤ) : ℚ) < c5State.p_prev then
          (if c5State.duty_inc = true then clampDec c5State.duty_cycle
           else clampInc c5State.duty_cycle)
        else c5State.duty_cycle) ∧
     D_MIN ≤ (mpptStep c5State ⟨0, 3, 0, 0, 0⟩).duty_cycle ∧
     (mpptStep c5State ⟨0, 3, 0, 0, 0⟩).duty_cycle ≤ D_MAX) :=
  ⟨⟨rfl, rfl, by decide, by decide⟩,
   C5_perturb_and_observe c5State ⟨0, 3, 0, 0, 0⟩ rfl rfl (by decide) (by decide)⟩

theorem mpptStep_entry (s : Charger) (inp : Inputs)
    (hni : s.new_integral = true) (hn2 : s.num_integrals + 1 < NUM_INT) :
    (mpptStep s inp).sw = false ∧
    (mpptStep s inp).integral_avg = Int.fdiv (s.integral_avg + s.integral) 2 ∧
    (mpptStep s inp).num_integrals = s.num_integrals + 1 ∧
    (mpptStep s inp).integral = 0 ∧
    (mpptStep s inp).new_integral = false := by
  unfold mpptStep
  have hu : (solarDropCheck (check_solar (check_battery s inp.vbat1) inp.vsol)).new_integral =
      true := by
    rw [solarDropCheck_ni, check_solar_ni, check_battery_ni]; exact hni
  rw [entryFold_fold _ hu]
  rw [solarDropCheck_num, check_solar_num, check_battery_num,
      solarDropCheck_avg, check_solar_avg, check_battery_avg,
      solarDropCheck_integral, check_solar_integral, check_battery_integral]
  have hmod : (s.num_integrals + 1) % 256 = s.num_integrals + 1 :=
    Nat.mod_eq_of_lt (by unfold NUM_INT at hn2; omega)
  rw [hmod]
  rw [decisionStep_skip _ _ (by simp only; unfold NUM_INT at hn2 ⊢; omega)]
  exact ⟨rfl, rfl, rfl, rfl, rfl⟩

theorem mpptStep_idle (s : Charger) (inp : Inputs)
    (hni : s.new_integral = false) (hn : s.num_integrals ≠ NUM_INT) :
    (mpptStep s inp).integral_avg = s.integral_avg ∧
    (mpptStep s inp).num_integrals = s.num_integrals ∧
    (mpptStep s inp).integral = s.integral := by
  unfold mpptStep
  rw [mpptPre_no_fold s inp.vbat1 inp.vsol hni]
  rw [decisionStep_skip _ _ (by rw [solarDropCheck_num, check_solar_num, check_battery_num]; exact hn)]
  rw [solarDropCheck_avg, check_solar_avg, check_battery_avg,
      solarDropCheck_num, check_solar_num, check_battery_num,
      solarDropCheck_integral, check_solar_integral, check_battery_integral]
  exact ⟨rfl, rfl, rfl⟩

/-- C6: on entry to the MPPT phase (while `new_integral` is still set) the
handler drives the switch OFF, folds the completed integral into the running
average by the single exponential step `(integral_avg + integral) / 2`
(the arithmetic right shift, i.e. floor halving), increments
`num_integrals`, resets `integral` to 0 and clears the entry flag — and the
fold is not repeated on a subsequent MPPT dispatch of the same period. -/
theorem C6_entry_fold_once (s : Charger) (inp inp2 : Inputs)
    (hni : s.new_integral = true) (hn2 : s.num_integrals + 1 < NUM_INT) :
    (mpptStep s inp).sw = false ∧
    (mpptStep s inp).integral_avg = Int.fdiv (s.integral_avg + s.integral) 2 ∧
    (mpptStep s inp).num_integrals = s.num_integrals + 1 ∧
    (mpptStep s inp).integral = 0 ∧
    (mpptStep s inp).new_integral = false ∧
    (mpptStep (mpptStep s inp) inp2).integral_avg = (mpptStep s inp).integral_avg ∧
    (mpptStep (mpptStep s inp) inp2).num_integrals = (mpptStep s inp).num_integrals ∧
    (mpptStep (mpptStep s inp) inp2).integral = (mpptStep s inp).integral := by
  obtain ⟨h1, h2, h3, h4, h5⟩ := mpptStep_entry s inp hni hn2
  obtain ⟨g1, g2, g3⟩ := mpptStep_idle (mpptStep s inp) inp2 h5
    (by rw [h3]; unfold NUM_INT at hn2 ⊢; omega)
  exact ⟨h1, h2, h3, h4, h5, g1, g2, g3⟩

/-- Witness for C6 at a concrete just-entered state. -/
theorem C6_entry_fold_once_witness :
    (c6State.new_integral = true ∧ c6State.num_integrals + 1 < NUM_INT) ∧
    ((mpptStep c6State ⟨0, 0, 0, 0, 0⟩).sw = false ∧
     (mpptStep c6State ⟨0, 0, 0, 0, 0⟩).integral_avg =
       Int.fdiv (c6State.integral_avg + c6State.integral) 2 ∧
     (mpptStep c6State ⟨0, 0, 0, 0, 0⟩).num_integrals = c6State.num_integrals + 1 ∧
     (mpptStep c6State ⟨0, 0, 0, 0, 0⟩).integral = 0 ∧
     (mpptStep c6State ⟨0, 0, 0, 0, 0⟩).new_integral = false ∧
     (mpptStep (mpptStep c6State ⟨0, 0, 0, 0, 0⟩) ⟨1, 1, 1, 1, 1⟩).integral_avg =
       (mpptStep c6State ⟨0, 0, 0, 0, 0⟩).integral_avg ∧
     (mpptStep (mpptStep c6State ⟨0, 0, 0, 0, 0⟩) ⟨1, 1, 1, 1, 1⟩).num_integrals =
       (mpptStep c6State ⟨0, 0, 0, 0, 0⟩).num_integrals ∧
     (mpptStep (mpptStep c6State ⟨0, 0, 0, 0, 0⟩) ⟨1, 1, 1, 1, 1⟩).integral =
       (mpptStep c6State ⟨0, 0, 0, 0, 0⟩).integral) :=
  ⟨⟨rfl, by decide⟩,
   C6_entry_fold_once c6State ⟨0, 0, 0, 0, 0⟩ ⟨1, 1, 1, 1, 1⟩ rfl (by decide)⟩

theorem doneStep_sw_timer (s : Charger) (inp : Inputs) :
    (doneStep s inp).sw = false ∧ (doneStep s inp).timer_on = false := by
  simp only [doneStep, check_battery, check_solar]
  split_ifs <;> simp

theorem mpptStep_solar_drop (s : Charger) (inp : Inputs)
    (h : inp.vsol * (D_MAX : ℚ) / 100 < inp.vbat1) :
    (mpptStep s inp).timer_on = false ∧ (mpptStep s inp).cur_state = STATES.DONE := by
  unfold mpptStep
  have hcond : (check_solar (check_battery s inp.vbat1) inp.vsol).v_solar * (D_MAX : ℚ) / 100 <
      (check_solar (check_battery s inp.vbat1) inp.vsol).v_battery := by
    rw [check_solar_vsol, check_solar_vbat, check_battery_vbat]
    exact h
  obtain ⟨ht, hc⟩ := solarDropCheck_trig _ hcond
  constructor
  · apply decisionStep_timer_off
    rw [entryFold_timer]
    exact ht
  · apply decisionStep_done
    rw [entryFold_state]
    exact hc

/-- C8: in the MPPT state, when the readings satisfy
`v_solar * D_MAX / 100 < v_battery`, the dispatch forces `timer_on` false
and moves to DONE; the next dispatch (the DONE handler) then forces the
switch output OFF and keeps the timer off. -/
theorem C8_insufficient_source (s : Charger) (inp inp2 : Inputs)
    (h : inp.vsol * (D_MAX : ℚ) / 100 < inp.vbat1) :
    (mpptStep s inp).timer_on = false ∧
    (mpptStep s inp).cur_state = STATES.DONE ∧
    (loopStep (mpptStep s inp) inp2).sw = false ∧
    (loopStep (mpptStep s inp) inp2).timer_on = false := by
  obtain ⟨ht, hc⟩ := mpptStep_solar_drop s inp h
  have hl : loopStep (mpptStep s inp) inp2 = doneStep (mpptStep s inp) inp2 := by
    unfold loopStep
    rw [hc]
  rw [hl]
  obtain ⟨hsw, ht2⟩ := doneStep_sw_timer (mpptStep s inp) inp2
  exact ⟨ht, hc, hsw, ht2⟩

/-- Witness for C8 with `v_solar = 10`, `v_battery = 12`. -/
theorem C8_insufficient_source_witness :
    ((10 : ℚ) * (D_MAX : ℚ) / 100 < 12) ∧
    ((mpptStep setupState ⟨12, 0, 10, 0, 0⟩).timer_on = false ∧
     (mpptStep setupState ⟨12, 0, 10, 0, 0⟩).cur_state = STATES.DONE ∧
     (loopStep (mpptStep setupState ⟨12, 0, 10, 0, 0⟩) ⟨0, 0, 0, 0, 0⟩).sw = false ∧
     (loopStep (mpptStep setupState ⟨12, 0, 10, 0, 0⟩) ⟨0, 0, 0, 0, 0⟩).timer_on = false) :=
  ⟨by norm_num [D_MAX],
   C8_insufficient_source setupState ⟨12, 0, 10, 0, 0⟩ ⟨0, 0, 0, 0, 0⟩ (by norm_num [D_MAX])⟩

/-- C9 (implicit): the DONE transition inside the MPPT handler is not
atomic with the rest of that handler: when the insufficient-source
condition fires, the same dispatch still performs the entry-edge fold
(`new_integral` set) and — the fold having completed the window — still
performs the p_prev assignment and the duty-cycle update, before DONE is
dispatched. -/
theorem C9_done_not_atomic (s : Charger) (inp : Inputs)
    (hcond : inp.vsol * (D_MAX : ℚ) / 100 < inp.vbat1)
    (hni : s.new_integral = true) (hnum : s.num_integrals = NUM_INT - 1)
    (hd1 : D_MIN ≤ s.duty_cycle) (hd2 : s.duty_cycle ≤ D_MAX) :
    (mpptStep s inp).cur_state = STATES.DONE ∧
    (mpptStep s inp).timer_on = false ∧
    (mpptStep s inp).new_integral = false ∧
    (mpptStep s inp).integral = 0 ∧
    (mpptStep s inp).integral_avg = Int.fdiv (s.integral_avg + s.integral) 2 ∧
    (mpptStep s inp).num_integrals = 0 ∧
    (mpptStep s inp).p_prev =
      inp.vbat2 * ((Int.fdiv (s.integral_avg + s.integral) 2 : ℤ) : ℚ) ∧
    (mpptStep s inp).duty_cycle =
      (if s.p_prev < inp.vbat2 * ((Int.fdiv (s.integral_avg + s.integral) 2 : ℤ) : ℚ) then
         (if s.duty_inc = true then clampInc s.duty_cycle else clampDec s.duty_cycle)
       else if inp.vbat2 * ((Int.fdiv (s.integral_avg + s.integral) 2 : ℤ) : ℚ) < s.p_prev then
         (if s.duty_inc = true then clampDec s.duty_cycle else clampInc s.duty_cycle)
       else s.duty_cycle) := by
  obtain ⟨htimer, hdone⟩ := mpptStep_solar_drop s inp hcond
  refine ⟨hdone, htimer, ?_⟩
  unfold mpptStep
  have hu0ni : (solarDropCheck (check_solar (check_battery s inp.vbat1) inp.vsol)).new_integral =
      true := by
    rw [solarDropCheck_ni, check_solar_ni, check_battery_ni]; exact hni
  rw [entryFold_fold _ hu0ni]
  set u0 := solarDropCheck (check_solar (check_battery s inp.vbat1) inp.vsol) with hu0
  have hav : u0.integral_avg = s.integral_avg := by
    rw [hu0, solarDropCheck_avg, check_solar_avg, check_battery_avg]
  have hin : u0.integral = s.integral := by
    rw [hu0, solarDropCheck_integral, check_solar_integral, check_battery_integral]
  have hnm : u0.num_integrals = NUM_INT - 1 := by
    rw [hu0, solarDropCheck_num, check_solar_num, check_battery_num]; exact hnum
  have hpp : u0.p_prev = s.p_prev := by
    rw [hu0, solarDropCheck_pprev, check_solar_pprev, check_battery_pprev]
  have hdi : u0.duty_inc = s.duty_inc := by
    rw [hu0, solarDropCheck_dinc, check_solar_dinc, check_battery_duty_inc]
  have hdc : u0.duty_cycle = s.duty_cycle := by
    rw [hu0, solarDropCheck_duty2, check_solar_duty, check_battery_duty]
  have htrig : ({ u0 with
                  sw := false
                  integral_avg := Int.fdiv (u0.integral_avg + u0.integral) 2
                  num_integrals := (u0.num_integrals + 1) % 256
                  new_integral := false
                  integral := 0 } : Charger).num_integrals = NUM_INT := by
    show (u0.num_integrals + 1) % 256 = NUM_INT
    rw [hnm]
    decide
  obtain ⟨h1, h2, h3, h4, h5, h6, h7, h8⟩ := decisionStep_trig _ inp.vbat2 htrig
  refine ⟨?_, ?_, ?_, ?_, ?_, ?_⟩
  · rw [h6]
  · rw [h4]
  · show _ = Int.fdiv (s.integral_avg + s.integral) 2
    rw [h5]
    show Int.fdiv (u0.integral_avg + u0.integral) 2 = _
    rw [hav, hin]
  · rw [h3]
  · rw [h2]
    show inp.vbat2 * ((Int.fdiv (u0.integral_avg + u0.integral) 2 : ℤ) : ℚ) = _
    rw [hav, hin]
  · rw [h8]
    show (if ({ u0 with
                sw := false
                integral_avg := Int.fdiv (u0.integral_avg + u0.integral) 2
                num_integrals := (u0.num_integrals + 1) % 256
                new_integral := false
                integral := 0 } : Charger).p_prev <
            inp.vbat2 * ((Int.fdiv (u0.integral_avg + u0.integral) 2 : ℤ) : ℚ) then _
          else _) = _
    simp only [hav, hin, hpp, hdi, hdc]
    rw [dutyUp_eq_clampInc _ hd1 hd2, dutyDown_eq_clampDec _ hd1 hd2]

/-- Witness for C9 at a concrete window-completing state with the
insufficient-source condition firing. -/
theorem C9_done_not_atomic_witness :
    ((10 : ℚ) * (D_MAX : ℚ) / 100 < 12 ∧ c9State.new_integral = true ∧
     c9State.num_integrals = NUM_INT - 1 ∧
     D_MIN ≤ c9State.duty_cycle ∧ c9State.duty_cycle ≤ D_MAX) ∧
    ((mpptStep c9State ⟨12, 3, 10, 0, 0⟩).cur_state = STATES.DONE ∧
     (mpptStep c9State ⟨12, 3, 10, 0, 0⟩).timer_on = false ∧
     (mpptStep c9State ⟨12, 3, 10, 0, 0⟩).new_integral = false ∧
     (mpptStep c9State ⟨12, 3, 10, 0, 0⟩).integral = 0 ∧
     (mpptStep c9State ⟨12, 3, 10, 0, 0⟩).integral_avg =
       Int.fdiv (c9State.integral_avg + c9State.integral) 2 ∧
     (mpptStep c9State ⟨12, 3, 10, 0, 0⟩).num_integrals = 0 ∧
     (mpptStep c9State ⟨12, 3, 10, 0, 0⟩).p_prev =
       (3 : ℚ) * ((Int.fdiv (c9State.integral_avg + c9State.integral) 2 : ℤ) : ℚ) ∧
     (mpptStep c9State ⟨12, 3, 10, 0, 0⟩).duty_cycle =
       (if c9State.p_prev <
           (3 : ℚ) * ((Int.fdiv (c9State.integral_avg + c9State.integral) 2 : ℤ) : ℚ) then
          (if c9State.duty_inc = true then clampInc c9State.duty_cycle
           else clampDec c9State.duty_cycle)
        else if (3 : ℚ) * ((Int.fdiv (c9State.integral_avg + c9State.integral) 2 : ℤ) : ℚ) <
            c9State.p_prev then
          (if c9State.duty_inc = true then clampDec c9State.duty_cycle
           else clampInc c9State.duty_cycle)
        else c9State.duty_cycle)) :=
  ⟨⟨by norm_num [D_MAX], rfl, by decide, by decide, by decide⟩,
   C9_done_not_atomic c9State ⟨12, 3, 10, 0, 0⟩ (by norm_num [D_MAX]) rfl (by decide)
     (by decide) (by decide)⟩

/-- Witness for C4 (amended) at a concrete mid-window state. -/
theorem C4_pwm_count_bound_witness :
    (c4Bench.pwm_count < 100 ∧ c4Bench.duty_cycle < 100) ∧
    ((pwm_handler c4Bench).pwm_count < 100 ∧
     (c4Bench.timer_on = true → c4Bench.pwm_count = 99 →
        (pwm_handler c4Bench).pwm_count = 0) ∧
     ((loopStep c4Bench ⟨0, 0, 0, 0, 0⟩).pwm_count = c4Bench.pwm_count ∨
      (loopStep c4Bench ⟨0, 0, 0, 0, 0⟩).pwm_count = 0)) :=
  ⟨⟨by decide, by decide⟩,
   C4_pwm_count_bound c4Bench ⟨0, 0, 0, 0, 0⟩ (by decide) (by decide)⟩
